import Mathlib

/-!
Formal model of `src/study_buddy_app.py` (AI-Powered Study Buddy).

The application is a Streamlit page backed by a Firestore document store.
We embed the store-facing behaviour shallowly:

* the Firestore client handle is `Option (List Note)` — `none` models a
  failed `initialize_firebase` (which returns Python `None`), and
  `some store` models a live handle whose per-user collection currently
  holds the records `store`;
* `firestore.SERVER_TIMESTAMP` is modelled as an explicit `Nat` argument;
* Streamlit display calls (`st.error`, `st.warning`, `st.success`,
  `st.info`) are modelled as emitted `Msg` values;
* Python string truthiness (`not s`) is `s = ""`, and `str.strip()` is
  `pyStrip`, dropping the ASCII whitespace characters from both ends.
-/

namespace StudyBuddy

/-- Characters stripped by Python `str.strip()` in the ASCII range:
space, tab, newline, carriage return, vertical tab, form feed. -/
def pyIsSpace (ch : Char) : Bool :=
  ch == ' ' || ch == '\t' || ch == '\n' || ch == '\r' ||
    ch == Char.ofNat 11 || ch == Char.ofNat 12

/-- Python `s.strip()`: remove leading and trailing whitespace characters. -/
def pyStrip (s : String) : String :=
  String.mk (((s.data.dropWhile pyIsSpace).reverse.dropWhile pyIsSpace).reverse)

/-- A stored note document, with the fields written by `save_note`
(`content`, `timestamp`, `title`, `user_id`). -/
structure Note where
  content : String
  timestamp : Nat
  title : String
  user_id : String
  deriving DecidableEq, Repr

/-- A user-facing Streamlit message, tagged with the `st.*` call used. -/
inductive Msg where
  | error (text : String)
  | warning (text : String)
  | success (text : String)
  | info (text : String)
  deriving DecidableEq, Repr

/-- The title derived at line 77 of the source:
`notes_content.strip()[:50] + ('...' if len(notes_content.strip()) > 50 else '')`. -/
def noteTitle (notes_content : String) : String :=
  String.mk ((pyStrip notes_content).data.take 50) ++
    (if 50 < (pyStrip notes_content).data.length then "..." else "")

/-- The document written by `doc_ref.set` at source lines 74-79: stripped
content, server timestamp, derived title, user id. -/
def noteDoc (notes_content : String) (ts : Nat) (uid : String) : Note :=
  { content := pyStrip notes_content, timestamp := ts,
    title := noteTitle notes_content, user_id := uid }

/-- `save_note` (source lines 65-82).  Guard: `if not db or not
notes_content.strip()` shows `st.error("Cannot save empty notes.")` and
returns; otherwise a fresh document is created holding the stripped
content, the server timestamp, the derived title and the user id, and
`st.success` is shown.  Returns the new handle state and the emitted
messages. -/
def save_note (db : Option (List Note)) (notes_content : String)
    (ts : Nat) (uid : String) : Option (List Note) × List Msg :=
  match db with
  | none => (none, [Msg.error "Cannot save empty notes."])
  | some store =>
      if pyStrip notes_content = "" then
        (some store, [Msg.error "Cannot save empty notes."])
      else
        (some (store ++ [noteDoc notes_content ts uid]),
         [Msg.success "Notes saved successfully!"])

/-- One multiple-choice question of the placeholder payload. -/
structure QuizQuestion where
  question : String
  options : List String
  correctAnswer : String
  deriving DecidableEq, Repr

/-- One flashcard of the placeholder payload. -/
structure Flashcard where
  term : String
  definition : String
  deriving DecidableEq, Repr

/-- The dictionary shape returned by `generate_quiz_content`: either the
error dictionary `{"error": ...}` or the quiz/flashcards dictionary. -/
inductive GenResult where
  | errorResult (msg : String)
  | payload (quiz : List QuizQuestion) (flashcards : List Flashcard)
  deriving DecidableEq, Repr

/-- Whether the returned dictionary contains an `error` key. -/
def hasErrorKey : GenResult → Bool
  | GenResult.errorResult _ => true
  | GenResult.payload _ _ => false

/-- The hard-coded quiz list of the placeholder response (lines 122-129). -/
def placeholderQuiz : List QuizQuestion :=
  [{ question := "Q1: What is the primary benefit of using Streamlit for this project?"
     options := ["A. Full control over CSS", "B. Fast development using only Python",
                 "C. Automated Firebase setup"]
     correctAnswer := "B. Fast development using only Python" },
   { question := "Q2: Where does the saved note data reside?"
     options := ["A. Local Storage", "B. Firestore database",
                 "C. An internal Streamlit cache"]
     correctAnswer := "B. Firestore database" }]

/-- The hard-coded flashcard list of the placeholder response (lines 130-133). -/
def placeholderFlashcards : List Flashcard :=
  [{ term := "Streamlit"
     definition := "A Python library used to create interactive web applications for data science and machine learning quickly." },
   { term := "Firestore"
     definition := "A flexible, scalable NoSQL cloud database used for storing the user\x27s study notes." }]

/-- `generate_quiz_content` (source lines 87-134): returns the error
dictionary when the stripped input is empty, and otherwise (after a
simulated delay, irrelevant to the value) the fixed placeholder
structure. -/
def generate_quiz_content (notes_content : String) : GenResult :=
  if pyStrip notes_content = "" then
    GenResult.errorResult "Notes required for generation."
  else
    GenResult.payload placeholderQuiz placeholderFlashcards

/-- The descending-timestamp order used by the Firestore query
`order_by('timestamp', direction=DESCENDING)`: `a` comes no later than
`b` when `b`'s timestamp is at most `a`'s. -/
def tsGE (a b : Note) : Prop := b.timestamp ≤ a.timestamp

instance : DecidableRel tsGE := fun a b => Nat.decLe b.timestamp a.timestamp

instance : IsTotal Note tsGE :=
  ⟨fun a b => Nat.le_total b.timestamp a.timestamp⟩

instance : IsTrans Note tsGE :=
  ⟨fun _ _ _ hab hbc => Nat.le_trans hbc hab⟩

/-- `display_saved_notes` (source lines 166-187): streams the query
`order_by('timestamp', DESCENDING).limit(10)` over the user collection
and renders the result (an empty result shows an `st.info` message; a
`None` handle raises inside `try` and is reported by the `except`
branch).  Returns the fetched list and the emitted messages. -/
def display_saved_notes (db : Option (List Note)) : List Note × List Msg :=
  match db with
  | none => ([], [Msg.error "Error retrieving notes: AttributeError"])
  | some store =>
      let notes_list := (List.insertionSort tsGE store).take 10
      (notes_list,
       if notes_list = [] then
         [Msg.info "No notes saved yet. Use the area above to paste your study material!"]
       else [])

/-- `authenticate_user` (source lines 41-54): with a token, the token is
verified (`verify` models `auth.verify_id_token` followed by the `uid`
lookup; an exception is `Except.error`) and a failure shows `st.error`
and returns the marker `"auth-failed"`; without a token an `st.warning`
is shown and the default user id is returned. -/
def authenticate_user (token : Option String)
    (verify : String → Except String String) : String × List Msg :=
  match token with
  | some t =>
      match verify t with
      | Except.ok uid => (uid, [])
      | Except.error e =>
          ("auth-failed", [Msg.error ("Authentication failed. Details: " ++ e)])
  | none =>
      ("streamlit-anon-user",
       [Msg.warning "No initial auth token found. Using a default user ID."])

/-- The store-affecting user actions an authenticated session can perform
(save from line 231, the fetch inside `display_saved_notes` at line 245,
quiz generation at line 239). -/
inductive Action where
  | save (notes_content : String) (ts : Nat)
  | display
  | generate (notes_content : String)
  deriving DecidableEq, Repr

/-- Effect of one action on the document store.  `display` and
`generate` only read: they never touch the collection contents. -/
def stepStore (db : Option (List Note)) (uid : String) :
    Action → Option (List Note)
  | Action.save c ts => (save_note db c ts uid).1
  | Action.display => db
  | Action.generate _ => db

/-- The module-level session gate (source lines 56-58): after
`authenticate_user`, a `"auth-failed"` user id calls `st.stop()`, so no
later application logic runs; otherwise the listed actions run against
the store.  Returns the final store state and the startup messages. -/
def run_session (token : Option String)
    (verify : String → Except String String) (db : Option (List Note))
    (actions : List Action) : Option (List Note) × List Msg :=
  match authenticate_user token verify with
  | (uid, msgs) =>
      if uid = "auth-failed" then (db, msgs)
      else (actions.foldl (fun s a => stepStore s uid a) db, msgs)

/-- Helper: a string all of whose characters are whitespace strips to the
empty string. -/
theorem pyStrip_empty_of_all_space (c : String)
    (hw : ∀ ch ∈ c.data, pyIsSpace ch) : pyStrip c = "" := by
  unfold pyStrip
  rw [List.dropWhile_eq_nil_iff.mpr hw]
  rfl

/-- C1: with an initialized handle and input whose stripped form is
non-empty, `save_note` appends exactly one record, whose title is the
first 50 characters of the stripped content with "..." appended exactly
when the stripped content exceeds 50 characters. -/
theorem save_note_persists_one_titled (store : List Note) (c uid : String)
    (ts : Nat) (h : pyStrip c ≠ "") :
    ∃ n : Note,
      (save_note (some store) c ts uid).1 = some (store ++ [n]) ∧
      n.title = String.mk ((pyStrip c).data.take 50) ++
        (if 50 < (pyStrip c).data.length then "..." else "") := by
  refine ⟨noteDoc c ts uid, ?_, rfl⟩
  simp [save_note, h]

/-- Witness for C1 at a concrete store and input. -/
theorem save_note_persists_one_titled_witness :
    ∃ n : Note,
      (save_note (some []) "hello world" 7 "u").1 = some ([] ++ [n]) ∧
      n.title = String.mk ((pyStrip "hello world").data.take 50) ++
        (if 50 < (pyStrip "hello world").data.length then "..." else "") :=
  save_note_persists_one_titled [] "hello world" "u" 7 (by decide)

/-- C2: for an input that strips to the empty string, `save_note` leaves
the store unchanged and shows the user the "Cannot save empty notes."
message. -/
theorem save_note_rejects_blank (db : Option (List Note)) (c uid : String)
    (ts : Nat) (h : pyStrip c = "") :
    (save_note db c ts uid).1 = db ∧
    (save_note db c ts uid).2 = [Msg.error "Cannot save empty notes."] := by
  cases db <;> simp [save_note, h]

/-- Witness for C2 at a concrete whitespace-only input. -/
theorem save_note_rejects_blank_witness :
    (save_note (some []) " \t " 3 "u").1 = some [] ∧
    (save_note (some []) " \t " 3 "u").2 =
      [Msg.error "Cannot save empty notes."] :=
  save_note_rejects_blank (some []) " \t " "u" 3 (by decide)

/-- C3 counterexample: the single space is a non-empty input on which
`generate_quiz_content` returns the error dictionary, not the fixed
placeholder structure, so the claim quantified over all non-empty inputs
fails. -/
theorem generate_quiz_nonempty_counterexample :
    (" " : String) ≠ "" ∧
    generate_quiz_content " " =
      GenResult.errorResult "Notes required for generation." ∧
    generate_quiz_content " " ≠
      GenResult.payload placeholderQuiz placeholderFlashcards := by
  refine ⟨by decide, rfl, by decide⟩

/-- C3 amended: `generate_quiz_content` returns the fixed placeholder
structure exactly for inputs whose whitespace-stripped form is
non-empty, and a dictionary with an error key for inputs whose stripped
form is empty (the empty string included). -/
theorem generate_quiz_content_stripped_spec (c : String) :
    (pyStrip c ≠ "" →
      generate_quiz_content c =
        GenResult.payload placeholderQuiz placeholderFlashcards) ∧
    (pyStrip c = "" →
      generate_quiz_content c =
        GenResult.errorResult "Notes required for generation." ∧
      hasErrorKey (generate_quiz_content c) = true) := by
  constructor
  · intro h
    simp [generate_quiz_content, h]
  · intro h
    simp [generate_quiz_content, h, hasErrorKey]

/-- Witness for the amended C3 at concrete inputs on both sides. -/
theorem generate_quiz_content_stripped_spec_witness :
    generate_quiz_content "abc" =
      GenResult.payload placeholderQuiz placeholderFlashcards ∧
    generate_quiz_content "" =
      GenResult.errorResult "Notes required for generation." :=
  ⟨(generate_quiz_content_stripped_spec "abc").1 (by decide),
   ((generate_quiz_content_stripped_spec "").2 (by decide)).1⟩

/-- C4: on a live handle, `display_saved_notes` fetches at most ten
records, in descending timestamp order, and they are the most recent
ones: the store splits (up to permutation) into the fetched list and a
remainder whose timestamps do not exceed any fetched timestamp. -/
theorem display_saved_notes_query_spec (store : List Note) :
    (display_saved_notes (some store)).1.length ≤ 10 ∧
    List.Pairwise tsGE (display_saved_notes (some store)).1 ∧
    ∃ rest : List Note,
      store.Perm ((display_saved_notes (some store)).1 ++ rest) ∧
      ∀ y ∈ rest, ∀ x ∈ (display_saved_notes (some store)).1,
        y.timestamp ≤ x.timestamp := by
  have hfst : (display_saved_notes (some store)).1 =
      (List.insertionSort tsGE store).take 10 := rfl
  have hsorted : List.Pairwise tsGE (List.insertionSort tsGE store) :=
    List.sorted_insertionSort tsGE store
  refine ⟨?_, ?_, (List.insertionSort tsGE store).drop 10, ?_, ?_⟩
  · rw [hfst]
    exact List.length_take_le 10 _
  · rw [hfst]
    exact List.Pairwise.sublist (List.take_sublist 10 _) hsorted
  · rw [hfst, List.take_append_drop]
    exact (List.perm_insertionSort tsGE store).symm
  · have hp : List.Pairwise tsGE
        ((List.insertionSort tsGE store).take 10 ++
          (List.insertionSort tsGE store).drop 10) := by
      rw [List.take_append_drop]
      exact hsorted
    intro y hy x hx
    rw [hfst] at hx
    exact (List.pairwise_append.mp hp).2.2 x hx y hy

/-- C5: `save_note` on a live handle preserves the invariant that every
stored record has non-empty content; in particular any record it writes
has non-empty content. -/
theorem save_note_content_nonempty (store : List Note) (c uid : String)
    (ts : Nat) (hinv : ∀ n ∈ store, n.content ≠ "") :
    ∃ store2, (save_note (some store) c ts uid).1 = some store2 ∧
      ∀ n ∈ store2, n.content ≠ "" := by
  by_cases h : pyStrip c = ""
  · exact ⟨store, by simp [save_note, h], hinv⟩
  · refine ⟨store ++ [noteDoc c ts uid], by simp [save_note, h], ?_⟩
    intro n hn
    rcases List.mem_append.mp hn with hmem | hmem
    · exact hinv n hmem
    · rw [List.mem_singleton.mp hmem]
      exact h

/-- Witness for C5 at a concrete store and input. -/
theorem save_note_content_nonempty_witness :
    ∃ store2, (save_note (some []) "hi" 1 "u").1 = some store2 ∧
      ∀ n ∈ store2, n.content ≠ "" :=
  save_note_content_nonempty [] "hi" "u" 1 (by simp)

/-- C6: no action of the application updates or deletes an existing
record: every step either leaves the store exactly as it was or appends
one fresh record at the end. -/
theorem stepStore_insert_only (db : Option (List Note)) (uid : String)
    (a : Action) :
    stepStore db uid a = db ∨
    ∃ store n, db = some store ∧ stepStore db uid a = some (store ++ [n]) := by
  cases a with
  | save c ts =>
      cases db with
      | none => exact Or.inl rfl
      | some store =>
          by_cases h : pyStrip c = ""
          · exact Or.inl (by simp [stepStore, save_note, h])
          · exact Or.inr ⟨store, noteDoc c ts uid, rfl,
              by simp [stepStore, save_note, h]⟩
  | display => exact Or.inl rfl
  | generate c => exact Or.inl rfl

/-- C7: when token verification fails, the session is halted after the
authentication error is reported: whatever actions the session would
have run, none runs and the store is untouched. -/
theorem auth_failure_halts_session (t : String)
    (verify : String → Except String String) (e : String)
    (db : Option (List Note)) (actions : List Action)
    (hv : verify t = Except.error e) :
    run_session (some t) verify db actions =
      (db, [Msg.error ("Authentication failed. Details: " ++ e)]) := by
  simp [run_session, authenticate_user, hv]

/-- Witness for C7 with a concrete failing verifier and pending actions. -/
theorem auth_failure_halts_session_witness :
    run_session (some "tok") (fun _ => Except.error "invalid token")
        (some []) [Action.save "notes" 1, Action.display] =
      (some [], [Msg.error ("Authentication failed. Details: " ++
        "invalid token")]) :=
  auth_failure_halts_session "tok" (fun _ => Except.error "invalid token")
    "invalid token" (some []) [Action.save "notes" 1, Action.display] rfl

/-- C8: with a `None` database handle, `save_note` persists nothing and
reports "Cannot save empty notes." for every input, the same message the
blank-input rejection produces. -/
theorem save_note_db_none (c uid : String) (ts : Nat) :
    save_note none c ts uid =
      (none, [Msg.error "Cannot save empty notes."]) ∧
    (save_note none c ts uid).2 = (save_note (some []) "" ts uid).2 := by
  exact ⟨rfl, rfl⟩

/-- C9: a string made only of whitespace characters (the non-empty ones
included) is rejected by `generate_quiz_content` with the error
dictionary, never the placeholder structure. -/
theorem generate_quiz_whitespace_only (c : String)
    (hw : ∀ ch ∈ c.data, pyIsSpace ch) :
    generate_quiz_content c =
      GenResult.errorResult "Notes required for generation." ∧
    ∀ q f, generate_quiz_content c ≠ GenResult.payload q f := by
  have h := pyStrip_empty_of_all_space c hw
  constructor
  · simp [generate_quiz_content, h]
  · intro q f
    simp [generate_quiz_content, h]

/-- Witness for C9 at the non-empty whitespace-only input " ". -/
theorem generate_quiz_whitespace_only_witness :
    generate_quiz_content " " =
      GenResult.errorResult "Notes required for generation." ∧
    ∀ q f, generate_quiz_content " " ≠ GenResult.payload q f :=
  generate_quiz_whitespace_only " " (by decide)

/-- C10: every accepted save stores the stripped input as the content
field, not the raw input. -/
theorem save_note_stores_stripped (store : List Note) (c uid : String)
    (ts : Nat) (h : pyStrip c ≠ "") :
    ∃ n : Note, (save_note (some store) c ts uid).1 = some (store ++ [n]) ∧
      n.content = pyStrip c := by
  exact ⟨noteDoc c ts uid, by simp [save_note, h], rfl⟩

/-- Witness for C10 at an input with surrounding whitespace. -/
theorem save_note_stores_stripped_witness :
    ∃ n : Note, (save_note (some []) " hi " 2 "u").1 = some ([] ++ [n]) ∧
      n.content = pyStrip " hi " :=
  save_note_stores_stripped [] " hi " "u" 2 (by decide)

end StudyBuddy
